import Mathlib

/-!
Verification development for the member-contact helpdesk application
(contact_helpdesk.py, google_rag_query.py): a shallow embedding of the
submission lifecycle, the payload merge operation, prompt composition and
the closure notification, with theorems settling the specification claims.

Conventions of the embedding:
- the contact_queue table is a list of Submission records;
- Python string truthiness (None/empty falsy) is truthyOpt;
- the stored Payload column is Option JsonText, where JsonText abstracts the
  Python json library on flat string-keyed maps: fromMap m is text produced
  by json.dumps m (json.loads succeeds on it), malformed s is non-empty text
  on which json.loads raises JSONDecodeError; a NULL or empty column is none;
- external services (Vertex AI retrieval, the OpenAI query, SendGrid) enter
  as explicit outcome parameters or as definitions modelled from their
  documented contracts, marked as such in their doc comments.
-/

namespace Helpdesk

/-- Flat JSON scalar values stored in the payload map (the code stores strings
such as "openai" and a trace id; the spec example also uses numbers). -/
inductive JVal where
  | str (s : String)
  | num (n : Int)
deriving DecidableEq, Repr

/-- Flat string-keyed JSON object, in insertion order, as a Python dict. -/
abbrev PayloadMap := List (String × JVal)

/-- Python dict assignment d[k] = v: replace the binding in place if the key
is present, otherwise append the new binding at the end. -/
def setKey : PayloadMap → String → JVal → PayloadMap
  | [], k, v => [(k, v)]
  | (k', v') :: rest, k, v =>
      if k' = k then (k, v) :: rest else (k', v') :: setKey rest k v

/-- Lookup of a key in a payload map (first binding wins, as in a dict whose
bindings are unique). -/
def lookupKey : PayloadMap → String → Option JVal
  | [], _ => none
  | (k', v') :: rest, k => if k' = k then some v' else lookupKey rest k

/-- Abstraction of the text stored in the Payload column: fromMap m is the
result of json.dumps on the flat map m, malformed s is any other non-empty
text, on which json.loads raises JSONDecodeError. -/
inductive JsonText where
  | fromMap (m : PayloadMap)
  | malformed (s : String)
deriving DecidableEq, Repr

/-- Model of json.loads on stored payload text: dumps output parses back to
the map, malformed text raises JSONDecodeError. -/
def json_loads : JsonText → Except String PayloadMap
  | .fromMap m => .ok m
  | .malformed _ => .error "JSONDecodeError"

/-- Row of the contact_queue table (header comment of contact_helpdesk.py
lists the columns). Nullable columns are Option; Status holds the literal
strings New / Processed / Closed written by the code. -/
structure Submission where
  Contact_ID : Nat
  Contact_Type : String
  Contact_Fname : String
  Contact_Lname : String
  Contact_Email : String
  Contact_DOB : String
  Contact_Question : String
  Contact_Response : Option String
  Final_Prompt : Option String
  Final_Response : Option String
  Evaluation : Option Nat
  Creation_Date : String
  Processed_Date : Option String
  Status : String
  Payload : Option JsonText
deriving DecidableEq, Repr

/-- Contact_queue table contents. -/
abbrev DB := List Submission

/-- Python truthiness of a nullable string column: None and the empty string
are falsy. -/
def truthyOpt : Option String → Bool
  | none => false
  | some s => !s.isEmpty

/-- Python str() of a nullable string, as interpolated into an f-string. -/
def pyStr : Option String → String
  | none => "None"
  | some s => s

/-- Columns written by update_submission calls in contact_helpdesk.py. -/
inductive Field where
  | contact_Response
  | final_Prompt
  | final_Response
  | evaluation
  | status
  | payload
deriving DecidableEq, Repr

/-- Value bound to the placeholder of an UPDATE statement. -/
inductive DBValue where
  | vStr (s : String)
  | vNat (n : Nat)
  | vJson (j : JsonText)
deriving DecidableEq, Repr

/-- Effect of UPDATE contact_queue SET field = value on one row. Every call
site in the code passes the column its own type; a mismatched pair leaves the
row unchanged. -/
def setField (s : Submission) : Field → DBValue → Submission
  | .contact_Response, .vStr v => { s with Contact_Response := some v }
  | .final_Prompt, .vStr v => { s with Final_Prompt := some v }
  | .final_Response, .vStr v => { s with Final_Response := some v }
  | .evaluation, .vNat n => { s with Evaluation := some n }
  | .status, .vStr v => { s with Status := v }
  | .payload, .vJson j => { s with Payload := some j }
  | _, _ => s

/-- Embedding of fetch_submission_details / the SELECT ... WHERE
Contact_ID = id ... fetchone() pattern: first row with the given id. -/
def fetch_row (db : DB) (id : Nat) : Option Submission :=
  db.find? (fun s => s.Contact_ID == id)

/-- Embedding of update_submission: UPDATE contact_queue SET field = value
WHERE Contact_ID = id, applied to every matching row. -/
def update_submission (db : DB) (id : Nat) (f : Field) (v : DBValue) : DB :=
  db.map (fun s => if s.Contact_ID == id then setField s f v else s)

/-- Embedding of update_submission_payload: SELECT Payload, then — when the
row exists — json.loads of a truthy payload text (no try/except around it:
JSONDecodeError propagates), {} for NULL/empty, dict assignment, json.dumps,
UPDATE Payload. A missing row raises ValueError. The returned database is the
state at the point the exception (if any) escapes. -/
def update_submission_payload (db : DB) (id : Nat) (key : String) (value : JVal) :
    DB × Except String Unit :=
  match fetch_row db id with
  | some row =>
    match row.Payload with
    | some jt =>
      match json_loads jt with
      | .ok payload =>
          (update_submission db id .payload (.vJson (.fromMap (setKey payload key value))),
           .ok ())
      | .error e => (db, .error e)
    | none =>
        (update_submission db id .payload (.vJson (.fromMap (setKey [] key value))),
         .ok ())
  | none => (db, .error ("No submission found with ID: " ++ toString id))

/-- Embedding of insert_submission: INSERT of the seven supplied columns.
Modelled from the spec for the columns the INSERT omits: the table defaults
are NULL and the spec states intake "inserts a New submission", so Status
starts as New (the id is auto-generated; the caller of this model supplies a
fresh one). -/
def insert_submission (db : DB) (new_id : Nat)
    (contact_type fname lname email dob comment date : String) : DB :=
  db ++ [{ Contact_ID := new_id
           Contact_Type := contact_type
           Contact_Fname := fname
           Contact_Lname := lname
           Contact_Email := email
           Contact_DOB := dob
           Contact_Question := comment
           Contact_Response := none
           Final_Prompt := none
           Final_Response := none
           Evaluation := none
           Creation_Date := date
           Processed_Date := none
           Status := "New"
           Payload := none }]

/-- Module-level sender address of contact_helpdesk.py. -/
def email_from : String := "user@example.com"

/-- Module-level recipient address of contact_helpdesk.py. -/
def email_to : String := "user@example.com"

/-- Module-level subject line of contact_helpdesk.py. -/
def subject : String := "Response to your inquiry"

/-- Embedding of return_template: the closure email body built from the
submission's first name, last name, question and the response text. -/
def return_template (submission_details : Submission) (response : String) : String :=
  let user_name := submission_details.Contact_Fname ++ " " ++ submission_details.Contact_Lname
  let question := submission_details.Contact_Question
  "Dear " ++ user_name ++ ",\n\nThank you for your inquiry.\n\nYou asked our helpdesk the following question:\n"
    ++ question ++ "\n\n" ++ response
    ++ "\n\nIf you have any further questions, please feel free to contact us.\n\nBest regards,\nYour Helpdesk Team"

/-- Arguments passed to send_email_via_sendgrid at its call site (the
dispatcher itself is the external SendGrid collaborator; the record captures
exactly what the code hands it). -/
structure EmailMsg where
  efrom : String
  eto : String
  esubject : String
  body : String
deriving DecidableEq, Repr

/-- Telemetry events emitted by clicked_submit_response: send_baserun_tag
carries the evaluation and the decoded payload (which holds the stored trace
id), send_generic_baserun_message carries model name, prompt, response and
evaluation. -/
inductive TelemetryEvent where
  | tagged (evaluation : Nat) (payload : PayloadMap)
  | generic (model_name : String) (prompt : String) (response : String) (evaluation : Nat)
deriving DecidableEq, Repr

/-- Embedding of clicked_close_submission. The code first runs
update_submission Status := Closed, then builds the email body with
return_template and calls send_email_via_sendgrid; the dispatch outcome of
that external call is the emailOutcome parameter. The returned database is
the state when the function returns or the dispatch exception escapes — in
both cases the Status update has already been committed. -/
def clicked_close_submission (db : DB) (submission_id : Nat)
    (submission_details : Submission) (emailOutcome : Except String Unit) :
    DB × List EmailMsg × Except String Unit :=
  let db' := update_submission db submission_id .status (.vStr "Closed")
  let response := pyStr submission_details.Final_Response
  let email_body := return_template submission_details response
  (db', [{ efrom := email_from, eto := email_to, esubject := subject, body := email_body }],
   emailOutcome)

/-- Embedding of clicked_get_openai. The two external steps — get_rag_prompt
(retrieval plus prompt build) and send_baserun_openai_query (generation,
returning response text and a trace id) — enter as outcome parameters; a
failure of either raises before any database statement runs. On success the
code issues three update_submission statements and two
update_submission_payload merges, in this order. The returned database is
the state at the point an exception (if any) escapes. -/
def clicked_get_openai (db : DB) (submission_id : Nat)
    (ragPrompt : Except String String)
    (openaiReply : Except String (String × String)) : DB × Except String Unit :=
  match ragPrompt with
  | .error e => (db, .error e)
  | .ok prompt =>
    match openaiReply with
    | .error e => (db, .error e)
    | .ok (response, trace_id) =>
      let db1 := update_submission db submission_id .contact_Response (.vStr response)
      let db2 := update_submission db1 submission_id .final_Prompt (.vStr prompt)
      let db3 := update_submission db2 submission_id .status (.vStr "Processed")
      match update_submission_payload db3 submission_id "llm" (.str "openai") with
      | (db4, .ok _) => update_submission_payload db4 submission_id "trace_id" (.str trace_id)
      | (db4, .error e) => (db4, .error e)

/-- Decoding of the stored payload text inside clicked_submit_response: a
falsy column gives {}, otherwise json.loads runs under try/except and a
JSONDecodeError is recovered as {} with a warning (the Bool). -/
def decode_payload_recovering : Option JsonText → PayloadMap × Bool
  | none => ([], false)
  | some jt =>
    match json_loads jt with
    | .ok m => (m, false)
    | .error _ => ([], true)

/-- Embedding of clicked_submit_response. The session-state values behind the
final_{id} text area and slider_{id} slider enter as parameters. The code
decodes the payload (recovering from parse errors with a warning), persists
Final_Response and Evaluation, then emits exactly one telemetry event: the
tagged one when the decoded payload maps the key llm to the string openai,
the generic one otherwise. Result: database, emitted events, warning flag. -/
def clicked_submit_response (db : DB) (submission_id : Nat)
    (submission_details : Submission) (prompt : String)
    (final_state : String) (slider_state : Nat) :
    DB × List TelemetryEvent × Bool :=
  let pw := decode_payload_recovering submission_details.Payload
  let payload := pw.1
  let db1 := update_submission db submission_id .final_Response (.vStr final_state)
  let db2 := update_submission db1 submission_id .evaluation (.vNat slider_state)
  let ev :=
    if lookupKey payload "llm" = some (.str "openai") then
      TelemetryEvent.tagged slider_state payload
    else
      TelemetryEvent.generic "gemini-1.5-pro-001" prompt final_state slider_state
  (db2, [ev], pw.2)

/-! Retrieval and prompt composition (google_rag_query.py). -/

/-- Retrieved passage together with its similarity score. -/
structure RagContext where
  text : String
  score : Nat
deriving DecidableEq, Repr

/-- Stable descending insertion by similarity score: the new passage goes
after every passage of greater or equal score, so ties keep the service's
native order. -/
def insertDesc (c : RagContext) : List RagContext → List RagContext
  | [] => [c]
  | d :: rest => if d.score < c.score then c :: d :: rest else d :: insertDesc c rest

/-- Descending stable sort by similarity score. -/
def sortDesc : List RagContext → List RagContext
  | [] => []
  | c :: rest => insertDesc c (sortDesc rest)

/-- Modelled from the spec: the external Vertex AI rag.retrieval_query
service, which is not part of this repository — per its contract and the
spec it returns the passages relevant to the query ranked by similarity
score descending (ties in native order), capped at similarity_top_k. The
scored relevant candidates the service finds for the query enter as the
scored parameter. -/
def retrieval_query (scored : List RagContext) (similarity_top_k : Nat) : List RagContext :=
  (sortDesc scored).take similarity_top_k

/-- Embedding of query_corpus: a retrieval query against the configured
corpus with similarity_top_k = 3. -/
def query_corpus (scored : List RagContext) : List RagContext :=
  retrieval_query scored 3

/-- Context string the prompt embeds: the text of the first retrieved
passage, or the empty string when retrieval returned no passages (the
if contexts_list branch of get_rag_prompt). -/
def rag_reply_of : List RagContext → String
  | c :: _ => c.text
  | [] => ""

/-- System instruction list hard-coded in get_rag_prompt. -/
def system_list : List String :=
  [ "You are an expert assistance extracting information from context provided.",
    "Answer the question based on the context. Be concise and do not hallucinate.",
    "Respond with the information you have in polite and professional manner.",
    "If you do not have the information just say so and start the reply with [NONE].",
    "Any query for Member ID or Member Number should use Brand_Member_ID as context but refer to it as Member ID.",
    "Responsed in markdown format to make it easy to read." ]

/-- Python repr of the member-data dict as the f-string interpolates it:
string keys and values in single quotes, bindings in insertion order. -/
def pyDictRepr (m : List (String × String)) : String :=
  "\x7b" ++ String.intercalate ", "
    (m.map (fun kv => "'" ++ kv.1 ++ "': '" ++ kv.2 ++ "'")) ++ "\x7d"

/-- Prompt composition of get_rag_prompt: the space-joined system
instructions followed by the triple-quoted f-string embedding the retrieved
context, the member data and the question, character for character. -/
def compose (sys : List String) (rag_reply : String)
    (known_info : List (String × String)) (myquestion : String) : String :=
  String.intercalate " " sys ++
    "\n        Context: " ++ rag_reply ++ " with Additional data " ++ pyDictRepr known_info ++
    "\n        Question:  \n        " ++ myquestion ++ "\n        Answer: '\n    "

/-- Pure core of get_rag_prompt, after the database and corpus lookups: pick
the first retrieved context (empty string when there is none) and compose
the full prompt. -/
def get_rag_prompt (contexts_list : List RagContext)
    (known_info : List (String × String)) (myquestion : String) : String :=
  compose system_list (rag_reply_of contexts_list) known_info myquestion

/-! Reachable states of the application. Actions come from the two pages of
main: the contact form (insert_submission, guarded by the truthiness checks
of member_contact_form) and the submission-details page, whose buttons
load_submission_details wires only for submissions listed by
fetch_waiting_submissions (Status <> Closed): the close button only when
Final_Response is truthy, the fetch button only when Final_Response and the
Contact_Response session value are falsy, the submit-response button only
when Final_Response is falsy. -/

/-- Contact_ID column of every row. -/
def ids (db : DB) : List Nat := db.map (fun s => s.Contact_ID)

/-- Payload text as update_submission_payload reads it: {} for a falsy
column, otherwise the result of json.loads (no recovery). -/
def payload_or_empty : Option JsonText → Except String PayloadMap
  | none => .ok []
  | some jt => json_loads jt

/-- One user action of the app, with the gating conditions under which
load_submission_details and member_contact_form offer it. -/
inductive Step : DB → DB → Prop
  | intake (db : DB) (new_id : Nat)
      (contact_type fname lname email dob comment date : String)
      (hfresh : new_id ∉ ids db)
      (hct : contact_type ≠ "") (hf : fname ≠ "") (hl : lname ≠ "")
      (he : email ≠ "") (hc : comment ≠ "") :
      Step db (insert_submission db new_id contact_type fname lname email dob comment date)
  | getOpenai (db : DB) (id : Nat) (details : Submission)
      (ragPrompt : Except String String)
      (openaiReply : Except String (String × String))
      (hrow : fetch_row db id = some details)
      (hopen : details.Status ≠ "Closed")
      (hfr : truthyOpt details.Final_Response = false)
      (hcr : truthyOpt details.Contact_Response = false) :
      Step db (clicked_get_openai db id ragPrompt openaiReply).1
  | submitResponse (db : DB) (id : Nat) (details : Submission)
      (prompt final_state : String) (slider_state : Nat)
      (hrow : fetch_row db id = some details)
      (hopen : details.Status ≠ "Closed")
      (hfr : truthyOpt details.Final_Response = false) :
      Step db (clicked_submit_response db id details prompt final_state slider_state).1
  | close (db : DB) (id : Nat) (details : Submission)
      (emailOutcome : Except String Unit)
      (hrow : fetch_row db id = some details)
      (hopen : details.Status ≠ "Closed")
      (hfr : truthyOpt details.Final_Response = true) :
      Step db (clicked_close_submission db id details emailOutcome).1

/-- Database states reachable from an empty contact_queue table. -/
inductive Reachable : DB → Prop
  | init : Reachable []
  | step {db db' : DB} : Reachable db → Step db db' → Reachable db'

/-- Row-level closure invariant: a Closed row has a non-empty final
response. -/
def invRow (s : Submission) : Prop :=
  s.Status = "Closed" → truthyOpt s.Final_Response = true

/-- Database invariant: ids are unique (the auto-increment primary key) and
every row satisfies the closure invariant. -/
def Inv (db : DB) : Prop :=
  (ids db).Nodup ∧ ∀ s ∈ db, invRow s

/-! Concrete fixtures used by witnesses and counterexamples. -/

/-- Freshly inserted submission, as intake creates it. -/
def w_r1 : Submission :=
  { Contact_ID := 1
    Contact_Type := "Claim"
    Contact_Fname := "Ann"
    Contact_Lname := "Lee"
    Contact_Email := "ann@example.com"
    Contact_DOB := "1990-01-01"
    Contact_Question := "What is my deductible?"
    Contact_Response := none
    Final_Prompt := none
    Final_Response := none
    Evaluation := none
    Creation_Date := "2024-07-17 00:00:00"
    Processed_Date := none
    Status := "New"
    Payload := none }

/-- Table holding just the fresh submission. -/
def w_db1 : DB :=
  insert_submission [] 1 "Claim" "Ann" "Lee" "ann@example.com" "1990-01-01"
    "What is my deductible?" "2024-07-17 00:00:00"

/-- Table after a successful fetchAnswer on the fresh submission. -/
def w_db2 : DB := (clicked_get_openai w_db1 1 (.ok "PROMPT") (.ok ("ANSWER", "trace-1"))).1

/-- Row of w_db2. -/
def w_r2 : Submission :=
  { w_r1 with
    Contact_Response := some "ANSWER"
    Final_Prompt := some "PROMPT"
    Status := "Processed"
    Payload := some (.fromMap [("llm", .str "openai"), ("trace_id", .str "trace-1")]) }

/-- Table after the reviewer submits a final response with evaluation 4. -/
def w_db3 : DB := (clicked_submit_response w_db2 1 w_r2 "PROMPT" "Final answer." 4).1

/-- Row of w_db3. -/
def w_r3 : Submission :=
  { w_r2 with Final_Response := some "Final answer.", Evaluation := some 4 }

/-- Table after closing the reviewed submission. -/
def w_db4 : DB := (clicked_close_submission w_db3 1 w_r3 (.ok ())).1

/-- Processed submission, used to probe a second fetchAnswer. -/
def p_r : Submission :=
  { w_r1 with
    Contact_Response := some "old answer"
    Final_Prompt := some "old prompt"
    Status := "Processed"
    Payload := some (.fromMap [("llm", .str "openai"), ("trace_id", .str "t0")]) }

/-- Table holding just the processed submission. -/
def p_db : DB := [p_r]

/-- Submission whose stored payload text is not parseable JSON. -/
def bad_r : Submission := { w_r1 with Payload := some (.malformed "\x7bnot json") }

/-- Table holding just the malformed-payload submission. -/
def bad_db : DB := [bad_r]

/-- Reviewed submission awaiting closure. -/
def c_r : Submission := { p_r with Final_Response := some "Final answer.", Evaluation := some 4 }

/-- Table holding just the reviewed submission. -/
def c_db : DB := [c_r]

/-! Basic lemmas about the store operations. -/

theorem setField_Contact_ID (s : Submission) (f : Field) (v : DBValue) :
    (setField s f v).Contact_ID = s.Contact_ID := by
  cases f <;> cases v <;> rfl

theorem ids_update (db : DB) (id : Nat) (f : Field) (v : DBValue) :
    ids (update_submission db id f v) = ids db := by
  induction db with
  | nil => rfl
  | cons hd tl ih =>
    simp only [ids, update_submission, List.map_cons] at ih ⊢
    rw [ih]
    by_cases h : (hd.Contact_ID == id) = true
    · rw [if_pos h, setField_Contact_ID]
    · rw [if_neg h]

theorem fetch_update (db : DB) (id : Nat) (f : Field) (v : DBValue) :
    fetch_row (update_submission db id f v) id =
      (fetch_row db id).map (fun s => setField s f v) := by
  induction db with
  | nil => rfl
  | cons hd tl ih =>
    simp only [update_submission, List.map_cons, fetch_row] at ih ⊢
    by_cases h : (hd.Contact_ID == id) = true
    · rw [if_pos h,
        show List.find? (fun s => s.Contact_ID == id)
            (setField hd f v ::
              List.map (fun s => if (s.Contact_ID == id) = true then setField s f v else s) tl) =
          some (setField hd f v) from
          List.find?_cons_of_pos _ (by rw [setField_Contact_ID]; exact h),
        show List.find? (fun s => s.Contact_ID == id) (hd :: tl) = some hd from
          List.find?_cons_of_pos _ h]
      rfl
    · rw [if_neg h,
        show List.find? (fun s => s.Contact_ID == id)
            (hd ::
              List.map (fun s => if (s.Contact_ID == id) = true then setField s f v else s) tl) =
          List.find? (fun s => s.Contact_ID == id)
            (List.map (fun s => if (s.Contact_ID == id) = true then setField s f v else s) tl) from
          List.find?_cons_of_neg _ h,
        show List.find? (fun s => s.Contact_ID == id) (hd :: tl) =
          List.find? (fun s => s.Contact_ID == id) tl from
          List.find?_cons_of_neg _ h]
      exact ih

theorem fetch_unique (db : DB) (id : Nat) (d : Submission)
    (hnd : (ids db).Nodup) (hf : fetch_row db id = some d) :
    ∀ s ∈ db, s.Contact_ID = id → s = d := by
  induction db with
  | nil => intro s hs; exact absurd hs (List.not_mem_nil s)
  | cons hd tl ih =>
    intro s hs hsid
    have hnd2 : (hd.Contact_ID :: ids tl).Nodup := hnd
    have hnd' := List.nodup_cons.mp hnd2
    rcases List.mem_cons.mp hs with rfl | hs'
    · unfold fetch_row at hf
      rw [show List.find? (fun x => x.Contact_ID == id) (s :: tl) = some s from
          List.find?_cons_of_pos _ (by simp [hsid])] at hf
      exact (Option.some_inj.mp hf)
    · by_cases h : (hd.Contact_ID == id) = true
      · exfalso
        have hid : id ∈ ids tl := List.mem_map.mpr ⟨s, hs', hsid⟩
        have hhd : hd.Contact_ID = id := by simpa using h
        exact hnd'.1 (by rw [hhd]; exact hid)
      · unfold fetch_row at hf
        rw [show List.find? (fun x => x.Contact_ID == id) (hd :: tl) =
            List.find? (fun x => x.Contact_ID == id) tl from
            List.find?_cons_of_neg _ h] at hf
        exact ih hnd'.2 hf s hs' hsid

/-! Preservation of the closure invariant by each store operation. -/

theorem invRow_set_cr (s : Submission) (v : DBValue) (h : invRow s) :
    invRow (setField s .contact_Response v) := by
  cases v <;> exact h

theorem invRow_set_fp (s : Submission) (v : DBValue) (h : invRow s) :
    invRow (setField s .final_Prompt v) := by
  cases v <;> exact h

theorem invRow_set_ev (s : Submission) (v : DBValue) (h : invRow s) :
    invRow (setField s .evaluation v) := by
  cases v <;> exact h

theorem invRow_set_pl (s : Submission) (v : DBValue) (h : invRow s) :
    invRow (setField s .payload v) := by
  cases v <;> exact h

theorem invRow_status_processed (s : Submission) :
    invRow (setField s .status (.vStr "Processed")) := by
  intro hc
  exact absurd hc (by decide : ("Processed" : String) ≠ "Closed")

theorem invRow_status_closed (s : Submission)
    (h : truthyOpt s.Final_Response = true) :
    invRow (setField s .status (.vStr "Closed")) :=
  fun _ => h

theorem invRow_set_final (s : Submission) (x : String) (h : s.Status ≠ "Closed") :
    invRow (setField s .final_Response (.vStr x)) :=
  fun hc => absurd hc h

theorem Inv_update (db : DB) (id : Nat) (f : Field) (v : DBValue)
    (hInv : Inv db)
    (hpres : ∀ s ∈ db, s.Contact_ID = id → invRow s → invRow (setField s f v)) :
    Inv (update_submission db id f v) := by
  refine ⟨by rw [ids_update]; exact hInv.1, ?_⟩
  intro s' hs'
  simp only [update_submission] at hs'
  obtain ⟨s, hs, hg⟩ := List.mem_map.mp hs'
  by_cases h : (s.Contact_ID == id) = true
  · rw [if_pos h] at hg
    exact hg ▸ hpres s hs (by simpa using h) (hInv.2 s hs)
  · rw [if_neg h] at hg
    exact hg ▸ hInv.2 s hs

theorem merge_fst_cases (db : DB) (id : Nat) (k : String) (v : JVal) :
    (update_submission_payload db id k v).1 = db ∨
    ∃ j, (update_submission_payload db id k v).1 =
      update_submission db id .payload (.vJson j) := by
  unfold update_submission_payload
  split
  · split
    · split
      · exact Or.inr ⟨_, rfl⟩
      · exact Or.inl rfl
    · exact Or.inr ⟨_, rfl⟩
  · exact Or.inl rfl

theorem Inv_merge (db : DB) (id : Nat) (k : String) (v : JVal) (hInv : Inv db) :
    Inv (update_submission_payload db id k v).1 := by
  rcases merge_fst_cases db id k v with h | ⟨j, h⟩
  · rw [h]; exact hInv
  · rw [h]
    exact Inv_update db id .payload (.vJson j) hInv
      (fun s _ _ hs => invRow_set_pl s (.vJson j) hs)

theorem Inv_get_openai (db : DB) (id : Nat) (rp : Except String String)
    (orr : Except String (String × String)) (hInv : Inv db) :
    Inv (clicked_get_openai db id rp orr).1 := by
  cases rp with
  | error e => exact hInv
  | ok prompt =>
    cases orr with
    | error e => exact hInv
    | ok pr =>
      obtain ⟨response, trace_id⟩ := pr
      have h1 := Inv_update db id .contact_Response (.vStr response) hInv
        (fun s _ _ hs => invRow_set_cr s (.vStr response) hs)
      have h2 := Inv_update _ id .final_Prompt (.vStr prompt) h1
        (fun s _ _ hs => invRow_set_fp s (.vStr prompt) hs)
      have h3 := Inv_update _ id .status (.vStr "Processed") h2
        (fun s _ _ _ => invRow_status_processed s)
      have h4 := Inv_merge _ id "llm" (.str "openai") h3
      simp only [clicked_get_openai]
      cases hm : update_submission_payload
          (update_submission
            (update_submission (update_submission db id .contact_Response (.vStr response))
              id .final_Prompt (.vStr prompt))
            id .status (.vStr "Processed")) id "llm" (.str "openai") with
      | mk db4 e4 =>
        rw [hm] at h4
        cases e4 with
        | ok u => exact Inv_merge db4 id "trace_id" (.str trace_id) h4
        | error e => exact h4

theorem step_preserves_inv {db db' : DB} (hInv : Inv db) (hs : Step db db') :
    Inv db' := by
  cases hs with
  | intake new_id contact_type fname lname email dob comment date hfresh hct hf hl he hc =>
    constructor
    · have hids : ids (insert_submission db new_id contact_type fname lname email dob comment date)
          = ids db ++ [new_id] := by
        simp [ids, insert_submission]
      rw [hids]
      exact List.Nodup.append hInv.1 (List.nodup_singleton _)
        (fun a ha hb => hfresh (by rwa [List.mem_singleton.mp hb] at ha))
    · intro s hsmem
      rcases List.mem_append.mp hsmem with hs1 | hs2
      · exact hInv.2 s hs1
      · rw [List.mem_singleton.mp hs2]
        intro hc'
        exact absurd hc' (by decide : ("New" : String) ≠ "Closed")
  | getOpenai id details ragPrompt openaiReply hrow hopen hfr hcr =>
    exact Inv_get_openai db id ragPrompt openaiReply hInv
  | submitResponse id details prompt final_state slider_state hrow hopen hfr =>
    have h1 := Inv_update db id .final_Response (.vStr final_state) hInv
      (fun s hsmem hid _ => by
        have hsd : s = details := fetch_unique db id details hInv.1 hrow s hsmem hid
        exact invRow_set_final s final_state (by rw [hsd]; exact hopen))
    have h2 := Inv_update _ id .evaluation (.vNat slider_state) h1
      (fun s _ _ hs => invRow_set_ev s (.vNat slider_state) hs)
    exact h2
  | close id details emailOutcome hrow hopen hfr =>
    exact Inv_update db id .status (.vStr "Closed") hInv
      (fun s hsmem hid _ => by
        have hsd : s = details := fetch_unique db id details hInv.1 hrow s hsmem hid
        exact invRow_status_closed s (by rw [hsd]; exact hfr))

theorem reachable_inv {db : DB} (h : Reachable db) : Inv db := by
  induction h with
  | init => exact ⟨List.nodup_nil, fun s hs => absurd hs (List.not_mem_nil s)⟩
  | step _ hs ih => exact step_preserves_inv ih hs

/-- C1: for every reachable state of the application, a submission whose
status is Closed has a non-empty final response — the close button is wired
only when Final_Response is truthy, and no other action can produce a Closed
row with an empty final response. -/
theorem closed_has_final_response (db : DB) (h : Reachable db) :
    ∀ s ∈ db, s.Status = "Closed" → truthyOpt s.Final_Response = true :=
  fun s hs hc => (reachable_inv h).2 s hs hc

/-- Witness for closed_has_final_response: a concrete four-step run — intake,
fetchAnswer, review, close — reaching a state that contains a Closed row. -/
theorem closed_has_final_response_witness :
    Reachable w_db4 ∧
      ∀ s ∈ w_db4, s.Status = "Closed" → truthyOpt s.Final_Response = true := by
  have h1 : Step [] w_db1 :=
    Step.intake [] 1 "Claim" "Ann" "Lee" "ann@example.com" "1990-01-01"
      "What is my deductible?" "2024-07-17 00:00:00" (by decide) (by decide)
      (by decide) (by decide) (by decide) (by decide)
  have h2 : Step w_db1 w_db2 :=
    Step.getOpenai w_db1 1 w_r1 (.ok "PROMPT") (.ok ("ANSWER", "trace-1"))
      (by decide) (by decide) (by decide) (by decide)
  have h3 : Step w_db2 w_db3 :=
    Step.submitResponse w_db2 1 w_r2 "PROMPT" "Final answer." 4
      (by decide) (by decide) (by decide)
  have h4 : Step w_db3 w_db4 :=
    Step.close w_db3 1 w_r3 (.ok ()) (by decide) (by decide) (by decide)
  have hr : Reachable w_db4 :=
    Reachable.step (Reachable.step (Reachable.step (Reachable.step Reachable.init h1) h2) h3) h4
  exact ⟨hr, closed_has_final_response w_db4 hr⟩

/-! Characterization of the success path of the store operations. -/

theorem fetch_update_some (db : DB) (id : Nat) (f : Field) (v : DBValue)
    (d0 : Submission) (h0 : fetch_row db id = some d0) :
    fetch_row (update_submission db id f v) id = some (setField d0 f v) := by
  rw [fetch_update, h0]
  rfl

theorem merge_ok (db : DB) (id : Nat) (k : String) (v : JVal) (d0 : Submission)
    (m : PayloadMap) (h0 : fetch_row db id = some d0)
    (hm : payload_or_empty d0.Payload = .ok m) :
    update_submission_payload db id k v =
      (update_submission db id .payload (.vJson (.fromMap (setKey m k v))), .ok ()) := by
  unfold update_submission_payload
  split
  · rename_i row heq
    rw [h0, Option.some.injEq] at heq
    subst heq
    split
    · rename_i jt hp
      rw [hp] at hm
      simp only [payload_or_empty] at hm
      split
      · rename_i payload hj
        rw [hj, Except.ok.injEq] at hm
        rw [hm]
      · rename_i e hj
        rw [hj] at hm
        exact absurd hm (by simp)
    · rename_i hp
      rw [hp] at hm
      simp only [payload_or_empty, Except.ok.injEq] at hm
      rw [← hm]
  · rename_i heq
    rw [h0] at heq
    exact absurd heq (by simp)

theorem get_openai_unfold (db : DB) (id : Nat) (prompt resp tr : String) (db4 : DB)
    (h : update_submission_payload
        (update_submission
          (update_submission (update_submission db id .contact_Response (.vStr resp))
            id .final_Prompt (.vStr prompt))
          id .status (.vStr "Processed"))
        id "llm" (.str "openai") = (db4, .ok ())) :
    clicked_get_openai db id (.ok prompt) (.ok (resp, tr)) =
      update_submission_payload db4 id "trace_id" (.str tr) := by
  simp only [clicked_get_openai]
  rw [h]

theorem get_openai_ok (db : DB) (id : Nat) (d0 : Submission) (m : PayloadMap)
    (prompt resp tr : String)
    (h0 : fetch_row db id = some d0) (hm : payload_or_empty d0.Payload = .ok m) :
    (clicked_get_openai db id (.ok prompt) (.ok (resp, tr))).2 = .ok () ∧
    fetch_row (clicked_get_openai db id (.ok prompt) (.ok (resp, tr))).1 id =
      some { d0 with
             Contact_Response := some resp
             Final_Prompt := some prompt
             Status := "Processed"
             Payload := some (.fromMap (setKey (setKey m "llm" (.str "openai"))
               "trace_id" (.str tr))) } := by
  have h1 := fetch_update_some db id .contact_Response (.vStr resp) d0 h0
  have h2 := fetch_update_some _ id .final_Prompt (.vStr prompt) _ h1
  have h3 := fetch_update_some _ id .status (.vStr "Processed") _ h2
  have hmerge1 := merge_ok _ id "llm" (.str "openai") _ m h3 hm
  have h4 := fetch_update_some _ id .payload
    (.vJson (.fromMap (setKey m "llm" (.str "openai")))) _ h3
  have hmerge2 := merge_ok _ id "trace_id" (.str tr) _ (setKey m "llm" (.str "openai")) h4 rfl
  have h5 := fetch_update_some _ id .payload
    (.vJson (.fromMap (setKey (setKey m "llm" (.str "openai")) "trace_id" (.str tr)))) _ h4
  have hrun := get_openai_unfold db id prompt resp tr _ hmerge1
  rw [hrun, hmerge2]
  exact ⟨rfl, h5⟩

/-- C2 counterexample: a successful fetchAnswer on the fresh submission
persists Status = Processed while Processed_Date stays NULL, so the listed
field set (raw_response, final_prompt, payload, status and processed_time)
is not persisted all together: processed_time is never written. -/
theorem fetchAnswer_processed_time_not_persisted :
    (clicked_get_openai w_db1 1 (.ok "PROMPT") (.ok ("ANSWER", "trace-1"))).2 = .ok () ∧
    (fetch_row w_db2 1).map Submission.Status = some "Processed" ∧
    (fetch_row w_db2 1).map Submission.Processed_Date = some none :=
  ⟨rfl, by decide, by decide⟩

/-- C2 (amended): a failure of the retrieval step (get_rag_prompt) or the
generation step (send_baserun_openai_query) aborts clicked_get_openai before
any database statement runs, leaving the table unchanged (status still New);
on success raw response, final prompt, payload backend and trace id, and
status = Processed are all persisted, while Processed_Date is left at its
previous value — it is never written. -/
theorem fetchAnswer_abort_and_persistence :
    (∀ (db : DB) (id : Nat) (e : String) (orr : Except String (String × String)),
        clicked_get_openai db id (.error e) orr = (db, .error e)) ∧
    (∀ (db : DB) (id : Nat) (p e : String),
        clicked_get_openai db id (.ok p) (.error e) = (db, .error e)) ∧
    (∀ (db : DB) (id : Nat) (d0 : Submission) (m : PayloadMap) (prompt resp tr : String),
        fetch_row db id = some d0 → payload_or_empty d0.Payload = .ok m →
        (clicked_get_openai db id (.ok prompt) (.ok (resp, tr))).2 = .ok () ∧
        fetch_row (clicked_get_openai db id (.ok prompt) (.ok (resp, tr))).1 id =
          some { d0 with
                 Contact_Response := some resp
                 Final_Prompt := some prompt
                 Status := "Processed"
                 Payload := some (.fromMap (setKey (setKey m "llm" (.str "openai"))
                   "trace_id" (.str tr))) } ∧
        (fetch_row (clicked_get_openai db id (.ok prompt) (.ok (resp, tr))).1 id).map
          Submission.Processed_Date = some d0.Processed_Date) := by
  refine ⟨fun db id e orr => rfl, fun db id p e => rfl, ?_⟩
  intro db id d0 m prompt resp tr h0 hm
  obtain ⟨ha, hb⟩ := get_openai_ok db id d0 m prompt resp tr h0 hm
  exact ⟨ha, hb, by rw [hb]; rfl⟩

/-- Witness for fetchAnswer_abort_and_persistence at the fresh submission. -/
theorem fetchAnswer_abort_and_persistence_witness :
    fetch_row w_db1 1 = some w_r1 ∧
    payload_or_empty w_r1.Payload = .ok [] ∧
    ((clicked_get_openai w_db1 1 (.ok "PROMPT") (.ok ("ANSWER", "trace-1"))).2 = .ok () ∧
     fetch_row (clicked_get_openai w_db1 1 (.ok "PROMPT") (.ok ("ANSWER", "trace-1"))).1 1 =
       some { w_r1 with
              Contact_Response := some "ANSWER"
              Final_Prompt := some "PROMPT"
              Status := "Processed"
              Payload := some (.fromMap (setKey (setKey [] "llm" (.str "openai"))
                "trace_id" (.str "trace-1"))) } ∧
     (fetch_row (clicked_get_openai w_db1 1 (.ok "PROMPT") (.ok ("ANSWER", "trace-1"))).1 1).map
       Submission.Processed_Date = some w_r1.Processed_Date) :=
  ⟨by decide, rfl,
   fetchAnswer_abort_and_persistence.2.2 w_db1 1 w_r1 [] "PROMPT" "ANSWER" "trace-1"
     (by decide) rfl⟩

/-- C6 counterexample: clicked_get_openai on a Processed submission does not
fail — there is no InvalidStateError anywhere in the code — and it mutates
the record. -/
theorem fetchAnswer_second_call_mutates :
    p_r.Status = "Processed" ∧
    (clicked_get_openai p_db 1 (.ok "p2") (.ok ("new answer", "t1"))).2 = .ok () ∧
    (clicked_get_openai p_db 1 (.ok "p2") (.ok ("new answer", "t1"))).1 ≠ p_db :=
  ⟨rfl, rfl, by decide⟩

/-- C6 (amended): clicked_get_openai performs no status check and cannot
fail with InvalidStateError (no such error exists in the code): invoked on a
submission whose status is not New it succeeds and overwrites raw response,
final prompt, payload and status; the UI merely omits the fetch button once
the raw response is non-empty. -/
theorem fetchAnswer_no_state_check (db : DB) (id : Nat) (d0 : Submission)
    (m : PayloadMap) (prompt resp tr : String)
    (h0 : fetch_row db id = some d0) (hst : d0.Status ≠ "New")
    (hm : payload_or_empty d0.Payload = .ok m) :
    (clicked_get_openai db id (.ok prompt) (.ok (resp, tr))).2 = .ok () ∧
    fetch_row (clicked_get_openai db id (.ok prompt) (.ok (resp, tr))).1 id =
      some { d0 with
             Contact_Response := some resp
             Final_Prompt := some prompt
             Status := "Processed"
             Payload := some (.fromMap (setKey (setKey m "llm" (.str "openai"))
               "trace_id" (.str tr))) } :=
  get_openai_ok db id d0 m prompt resp tr h0 hm

/-- Witness for fetchAnswer_no_state_check at the Processed submission. -/
theorem fetchAnswer_no_state_check_witness :
    fetch_row p_db 1 = some p_r ∧
    p_r.Status ≠ "New" ∧
    payload_or_empty p_r.Payload = .ok [("llm", .str "openai"), ("trace_id", .str "t0")] ∧
    ((clicked_get_openai p_db 1 (.ok "p2") (.ok ("new answer", "t1"))).2 = .ok () ∧
     fetch_row (clicked_get_openai p_db 1 (.ok "p2") (.ok ("new answer", "t1"))).1 1 =
       some { p_r with
              Contact_Response := some "new answer"
              Final_Prompt := some "p2"
              Status := "Processed"
              Payload := some (.fromMap (setKey (setKey
                [("llm", .str "openai"), ("trace_id", .str "t0")]
                "llm" (.str "openai")) "trace_id" (.str "t1"))) }) :=
  ⟨by decide, by decide, rfl,
   fetchAnswer_no_state_check p_db 1 p_r [("llm", .str "openai"), ("trace_id", .str "t0")]
     "p2" "new answer" "t1" (by decide) (by decide) rfl⟩

/-- C3 counterexample: closing the reviewed submission with a failing email
dispatch still leaves the row Closed — the status update is committed before
the dispatch, so the transition is not held back by the failure. -/
theorem close_dispatch_failure_status_closed :
    (fetch_row (clicked_close_submission c_db 1 c_r (.error "SendGridError")).1 1).map
      Submission.Status = some "Closed" ∧
    (clicked_close_submission c_db 1 c_r (.error "SendGridError")).2.2 =
      .error "SendGridError" :=
  ⟨by decide, rfl⟩

/-- C3 (amended): clicked_close_submission persists Status = Closed first
and only then renders and dispatches the notification; the persisted status
and the dispatched message are the same whatever the dispatch outcome, so a
dispatch failure leaves the submission already Closed. -/
theorem close_persists_before_dispatch (db : DB) (id : Nat)
    (details d0 : Submission) (outcome : Except String Unit)
    (h0 : fetch_row db id = some d0) :
    (clicked_close_submission db id details outcome).1 =
      update_submission db id .status (.vStr "Closed") ∧
    fetch_row (clicked_close_submission db id details outcome).1 id =
      some (setField d0 .status (.vStr "Closed")) ∧
    (clicked_close_submission db id details outcome).2.1 =
      [{ efrom := email_from, eto := email_to, esubject := subject,
         body := return_template details (pyStr details.Final_Response) }] ∧
    (clicked_close_submission db id details outcome).2.2 = outcome :=
  ⟨rfl, fetch_update_some db id .status (.vStr "Closed") d0 h0, rfl, rfl⟩

/-- Witness for close_persists_before_dispatch with a failing dispatch. -/
theorem close_persists_before_dispatch_witness :
    fetch_row c_db 1 = some c_r ∧
    ((clicked_close_submission c_db 1 c_r (.error "SendGridError")).1 =
       update_submission c_db 1 .status (.vStr "Closed") ∧
     fetch_row (clicked_close_submission c_db 1 c_r (.error "SendGridError")).1 1 =
       some (setField c_r .status (.vStr "Closed")) ∧
     (clicked_close_submission c_db 1 c_r (.error "SendGridError")).2.1 =
       [{ efrom := email_from, eto := email_to, esubject := subject,
          body := return_template c_r (pyStr c_r.Final_Response) }] ∧
     (clicked_close_submission c_db 1 c_r (.error "SendGridError")).2.2 =
       .error "SendGridError") :=
  ⟨by decide,
   close_persists_before_dispatch c_db 1 c_r c_r (.error "SendGridError") (by decide)⟩

/-! Lemmas about the payload map operations. -/

theorem lookupKey_setKey_self (m : PayloadMap) (k : String) (v : JVal) :
    lookupKey (setKey m k v) k = some v := by
  induction m with
  | nil => simp [setKey, lookupKey]
  | cons kv rest ih =>
    obtain ⟨k', v'⟩ := kv
    by_cases h : k' = k
    · simp [setKey, h, lookupKey]
    · simp [setKey, h, lookupKey, ih]

theorem lookupKey_setKey_ne (m : PayloadMap) (k k0 : String) (v : JVal)
    (h : k0 ≠ k) :
    lookupKey (setKey m k v) k0 = lookupKey m k0 := by
  have h' : k ≠ k0 := Ne.symm h
  induction m with
  | nil => simp [setKey, lookupKey, h']
  | cons kv rest ih =>
    obtain ⟨k', v'⟩ := kv
    by_cases hk : k' = k
    · subst hk
      simp [setKey, lookupKey, h']
    · by_cases hk0 : k' = k0
      · simp [setKey, hk, lookupKey, hk0, h]
      · simp [setKey, hk, lookupKey, hk0, ih]

/-- C4: two successive payload merges on an existing submission with
distinct keys leave a stored payload holding both bindings; a merge sets its
key and preserves every other previously set key, removing none. -/
theorem mergePayload_preserves_keys (db : DB) (id : Nat) (a b : String)
    (v1 v2 : JVal) (d0 : Submission) (m : PayloadMap)
    (h0 : fetch_row db id = some d0) (hm : payload_or_empty d0.Payload = .ok m)
    (hab : a ≠ b) :
    (update_submission_payload db id a v1).2 = .ok () ∧
    (update_submission_payload (update_submission_payload db id a v1).1 id b v2).2 = .ok () ∧
    (fetch_row (update_submission_payload
        (update_submission_payload db id a v1).1 id b v2).1 id).map Submission.Payload =
      some (some (.fromMap (setKey (setKey m a v1) b v2))) ∧
    lookupKey (setKey (setKey m a v1) b v2) a = some v1 ∧
    lookupKey (setKey (setKey m a v1) b v2) b = some v2 ∧
    ∀ k, k ≠ a → k ≠ b →
      lookupKey (setKey (setKey m a v1) b v2) k = lookupKey m k := by
  have hmerge1 := merge_ok db id a v1 d0 m h0 hm
  have h1 := fetch_update_some db id .payload (.vJson (.fromMap (setKey m a v1))) d0 h0
  have e1 : (update_submission_payload db id a v1).1 =
      update_submission db id .payload (.vJson (.fromMap (setKey m a v1))) := by
    rw [hmerge1]
  have hmerge2 := merge_ok _ id b v2 _ (setKey m a v1) h1 rfl
  have h2 := fetch_update_some _ id .payload
    (.vJson (.fromMap (setKey (setKey m a v1) b v2))) _ h1
  refine ⟨by rw [hmerge1], ?_, ?_, ?_, lookupKey_setKey_self _ b v2, ?_⟩
  · rw [e1, hmerge2]
  · rw [e1]
    have e2 : (update_submission_payload
        (update_submission db id .payload (.vJson (.fromMap (setKey m a v1)))) id b v2).1 =
        update_submission (update_submission db id .payload (.vJson (.fromMap (setKey m a v1))))
          id .payload (.vJson (.fromMap (setKey (setKey m a v1) b v2))) := by
      rw [hmerge2]
    rw [e2, h2]
    rfl
  · rw [lookupKey_setKey_ne _ b a v2 hab]
    exact lookupKey_setKey_self m a v1
  · intro k hka hkb
    rw [lookupKey_setKey_ne _ b k v2 hkb, lookupKey_setKey_ne _ a k v1 hka]

/-- Witness for mergePayload_preserves_keys: merging a then b into the fresh
submission's empty payload yields both bindings, matching the spec's
scenario payload a to 1, b to 2. -/
theorem mergePayload_preserves_keys_witness :
    fetch_row w_db1 1 = some w_r1 ∧ ("a" : String) ≠ "b" ∧
    ((update_submission_payload w_db1 1 "a" (.num 1)).2 = .ok () ∧
     (update_submission_payload (update_submission_payload w_db1 1 "a" (.num 1)).1
        1 "b" (.num 2)).2 = .ok () ∧
     (fetch_row (update_submission_payload
         (update_submission_payload w_db1 1 "a" (.num 1)).1 1 "b" (.num 2)).1 1).map
       Submission.Payload =
       some (some (.fromMap (setKey (setKey [] "a" (.num 1)) "b" (.num 2)))) ∧
     lookupKey (setKey (setKey [] "a" (.num 1)) "b" (.num 2)) "a" = some (.num 1) ∧
     lookupKey (setKey (setKey [] "a" (.num 1)) "b" (.num 2)) "b" = some (.num 2) ∧
     ∀ k, k ≠ "a" → k ≠ "b" →
       lookupKey (setKey (setKey [] "a" (.num 1)) "b" (.num 2)) k = lookupKey [] k) :=
  ⟨by decide, by decide,
   mergePayload_preserves_keys w_db1 1 "a" "b" (.num 1) (.num 2) w_r1 []
     (by decide) rfl (by decide)⟩

/-- C5 counterexample: a merge on the submission whose stored payload text
is the unparseable string of the spec scenario does not recover — the
JSONDecodeError propagates out of update_submission_payload and the table is
left unchanged, with no warning path in that function. -/
theorem mergePayload_malformed_raises :
    update_submission_payload bad_db 1 "k" (.str "v") =
      (bad_db, .error "JSONDecodeError") := by
  rfl

/-- C5 (amended): update_submission_payload substitutes an empty map only
when the stored payload is missing or empty; on unparseable JSON the parse
exception propagates to the caller with no warning and no recovery. The
recover-as-empty-map-with-warning behaviour lives in the review path
(clicked_submit_response) instead, which also still emits the generic
telemetry event. -/
theorem mergePayload_recovery_location :
    (∀ (db : DB) (id : Nat) (k : String) (v : JVal) (d0 : Submission),
        fetch_row db id = some d0 → d0.Payload = none →
        update_submission_payload db id k v =
          (update_submission db id .payload (.vJson (.fromMap [(k, v)])), .ok ())) ∧
    (∀ (db : DB) (id : Nat) (k : String) (v : JVal) (d0 : Submission) (s : String),
        fetch_row db id = some d0 → d0.Payload = some (.malformed s) →
        update_submission_payload db id k v = (db, .error "JSONDecodeError")) ∧
    (∀ (db : DB) (id : Nat) (d : Submission) (prompt fs : String) (sl : Nat) (s : String),
        d.Payload = some (.malformed s) →
        (clicked_submit_response db id d prompt fs sl).2.2 = true ∧
        (clicked_submit_response db id d prompt fs sl).2.1 =
          [TelemetryEvent.generic "gemini-1.5-pro-001" prompt fs sl]) := by
  refine ⟨?_, ?_, ?_⟩
  · intro db id k v d0 h0 hp
    have hm : payload_or_empty d0.Payload = .ok [] := by
      rw [hp]
      rfl
    exact merge_ok db id k v d0 [] h0 hm
  · intro db id k v d0 s h0 hp
    unfold update_submission_payload
    split
    · rename_i row heq
      rw [h0, Option.some.injEq] at heq
      subst heq
      split
      · rename_i jt hpj
        rw [hp, Option.some.injEq] at hpj
        subst hpj
        split
        · rename_i payload hj
          exact absurd hj (by simp [json_loads])
        · rename_i e hj
          simp only [json_loads, Except.error.injEq] at hj
          rw [hj]
      · rename_i hpn
        rw [hp] at hpn
        exact absurd hpn (by simp)
    · rename_i heq
      rw [h0] at heq
      exact absurd heq (by simp)
  · intro db id d prompt fs sl s hp
    constructor
    · simp [clicked_submit_response, decode_payload_recovering, hp, json_loads]
    · simp [clicked_submit_response, decode_payload_recovering, hp, json_loads, lookupKey]

/-- Witness for mergePayload_recovery_location at the malformed-payload
fixture. -/
theorem mergePayload_recovery_location_witness :
    bad_r.Payload = some (.malformed "\x7bnot json") ∧
    (update_submission_payload bad_db 1 "k" (.str "v") =
      (bad_db, .error "JSONDecodeError")) ∧
    ((clicked_submit_response bad_db 1 bad_r "p" "resp" 3).2.2 = true ∧
     (clicked_submit_response bad_db 1 bad_r "p" "resp" 3).2.1 =
       [TelemetryEvent.generic "gemini-1.5-pro-001" "p" "resp" 3]) :=
  ⟨by decide,
   mergePayload_recovery_location.2.1 bad_db 1 "k" (.str "v") bad_r "\x7bnot json"
     (by decide) (by decide),
   mergePayload_recovery_location.2.2 bad_db 1 bad_r "p" "resp" 3 "\x7bnot json"
     (by decide)⟩

/-! Retrieval ordering and capping. -/

theorem mem_insertDesc (c : RagContext) (l : List RagContext) (x : RagContext) :
    x ∈ insertDesc c l ↔ x = c ∨ x ∈ l := by
  induction l with
  | nil => simp [insertDesc]
  | cons d rest ih =>
    by_cases hc : d.score < c.score
    · simp only [insertDesc, if_pos hc, List.mem_cons]
    · simp only [insertDesc, if_neg hc, List.mem_cons, ih]
      tauto

theorem pairwise_insertDesc (c : RagContext) (l : List RagContext)
    (h : l.Pairwise (fun a b => b.score ≤ a.score)) :
    (insertDesc c l).Pairwise (fun a b => b.score ≤ a.score) := by
  induction l with
  | nil => simp [insertDesc]
  | cons d rest ih =>
    rw [List.pairwise_cons] at h
    by_cases hc : d.score < c.score
    · rw [show insertDesc c (d :: rest) = c :: d :: rest from by
        simp [insertDesc, hc]]
      refine List.Pairwise.cons ?_ (List.Pairwise.cons h.1 h.2)
      intro x hx
      rcases List.mem_cons.mp hx with rfl | hx'
      · exact Nat.le_of_lt hc
      · exact Nat.le_trans (h.1 x hx') (Nat.le_of_lt hc)
    · rw [show insertDesc c (d :: rest) = d :: insertDesc c rest from by
        simp [insertDesc, hc]]
      refine List.Pairwise.cons ?_ (ih h.2)
      intro x hx
      rcases (mem_insertDesc c rest x).mp hx with rfl | hx'
      · exact Nat.le_of_not_lt hc
      · exact h.1 x hx'

theorem pairwise_sortDesc (l : List RagContext) :
    (sortDesc l).Pairwise (fun a b => b.score ≤ a.score) := by
  induction l with
  | nil => simp [sortDesc]
  | cons c rest ih => exact pairwise_insertDesc c (sortDesc rest) ih

/-- C7: the retrieval step returns at most topK = 3 passages, ranked by
similarity score descending, and an empty retrieval result makes the prompt
pipeline proceed with the empty context string instead of failing. -/
theorem retrieval_capped_sorted_empty_ok (scored : List RagContext)
    (known_info : List (String × String)) (myquestion : String) :
    (query_corpus scored).length ≤ 3 ∧
    (query_corpus scored).Pairwise (fun a b => b.score ≤ a.score) ∧
    (query_corpus scored = [] →
      get_rag_prompt (query_corpus scored) known_info myquestion =
        compose system_list "" known_info myquestion) := by
  refine ⟨?_, ?_, ?_⟩
  · simp only [query_corpus, retrieval_query, List.length_take]
    exact Nat.min_le_left _ _
  · exact (pairwise_sortDesc scored).sublist (List.take_sublist _ _)
  · intro h
    rw [get_rag_prompt, h]
    rfl

/-- Witness for retrieval_capped_sorted_empty_ok on an empty scored
candidate list, where retrieval yields no passages. -/
theorem retrieval_capped_sorted_empty_ok_witness :
    (query_corpus []).length ≤ 3 ∧
    (query_corpus []).Pairwise (fun a b => b.score ≤ a.score) ∧
    (query_corpus [] = [] →
      get_rag_prompt (query_corpus []) [] "What is my deductible?" =
        compose system_list "" [] "What is my deductible?") :=
  retrieval_capped_sorted_empty_ok [] [] "What is my deductible?"

/-- C8: prompt composition is deterministic — equal system instruction
lists, retrieved context strings, member context maps and questions give
byte-identical prompt strings across invocations. -/
theorem compose_deterministic (sys sys' : List String) (c c' : String)
    (m m' : List (String × String)) (q q' : String)
    (hs : sys = sys') (hc : c = c') (hm : m = m') (hq : q = q') :
    compose sys c m q = compose sys' c' m' q' := by
  subst hs
  subst hc
  subst hm
  subst hq
  rfl

/-- Witness for compose_deterministic on the hard-coded system list and a
concrete context, member map and question. -/
theorem compose_deterministic_witness :
    compose system_list "ctx passage" [("Member_Name", "Ann Lee")] "What is my deductible?" =
      compose system_list "ctx passage" [("Member_Name", "Ann Lee")] "What is my deductible?" :=
  compose_deterministic system_list system_list "ctx passage" "ctx passage"
    [("Member_Name", "Ann Lee")] [("Member_Name", "Ann Lee")]
    "What is my deductible?" "What is my deductible?" rfl rfl rfl rfl

/-- C9: clicked_submit_response emits exactly one telemetry event, selected
by the decoded payload: the tagged evaluation event (with the stored payload
carrying the trace id) when key llm maps to the string openai, otherwise the
generic event carrying model name, prompt, response and evaluation score. -/
theorem review_telemetry_branch (db : DB) (id : Nat) (d : Submission)
    (prompt fs : String) (sl : Nat) :
    (clicked_submit_response db id d prompt fs sl).2.1.length = 1 ∧
    (lookupKey (decode_payload_recovering d.Payload).1 "llm" = some (.str "openai") →
      (clicked_submit_response db id d prompt fs sl).2.1 =
        [TelemetryEvent.tagged sl (decode_payload_recovering d.Payload).1]) ∧
    (lookupKey (decode_payload_recovering d.Payload).1 "llm" ≠ some (.str "openai") →
      (clicked_submit_response db id d prompt fs sl).2.1 =
        [TelemetryEvent.generic "gemini-1.5-pro-001" prompt fs sl]) := by
  refine ⟨?_, ?_, ?_⟩
  · by_cases h : lookupKey (decode_payload_recovering d.Payload).1 "llm" = some (.str "openai") <;>
      simp [clicked_submit_response, h]
  · intro h
    simp [clicked_submit_response, h]
  · intro h
    simp [clicked_submit_response, h]

/-- Witness for review_telemetry_branch: the Processed fixture stores
payload llm = openai, so the tagged event is emitted. -/
theorem review_telemetry_branch_witness :
    lookupKey (decode_payload_recovering p_r.Payload).1 "llm" = some (.str "openai") ∧
    (clicked_submit_response p_db 1 p_r "p" "resp" 4).2.1 =
      [TelemetryEvent.tagged 4 (decode_payload_recovering p_r.Payload).1] :=
  ⟨by decide, (review_telemetry_branch p_db 1 p_r "p" "resp" 4).2.1 (by decide)⟩

/-- C10: the closure email is always addressed from and to the module-level
constants with the module-level subject — the submission's Contact_Email
field plays no role: changing it changes nothing in the dispatched
message. -/
theorem closure_email_constant_recipient (db : DB) (id : Nat)
    (details : Submission) (outcome : Except String Unit) (e : String) :
    (clicked_close_submission db id details outcome).2.1 =
      [{ efrom := "user@example.com", eto := "user@example.com",
         esubject := "Response to your inquiry",
         body := return_template details (pyStr details.Final_Response) }] ∧
    (clicked_close_submission db id { details with Contact_Email := e } outcome).2.1 =
      (clicked_close_submission db id details outcome).2.1 ∧
    email_to = "user@example.com" ∧
    email_from = "user@example.com" ∧
    subject = "Response to your inquiry" :=
  ⟨rfl, rfl, rfl, rfl, rfl⟩

end Helpdesk
